import Mathlib

/-!
Verification of the webtop-il-kit scraper core against its specification.

The development shallowly embeds the pure logic of the Python sources
(`extractor.py`, `utils.py`, `pagination.py`, `auth.py`, `scraper.py`):
string processing is modelled on `String` / `List Char`, `datetime`
values as triples of naturals, page-driver effects as explicit
environments of outcomes, and Python exceptions as `Except` values.
-/

namespace Webtop

/-- `TextPatterns.NO_HOMEWORK_PLACEHOLDER` from `selectors.py`. -/
def NO_HOMEWORK_PLACEHOLDER : String := "אין"

/-- `TextPatterns.EMPTY_LESSON_PLACEHOLDER` from `selectors.py`. -/
def EMPTY_LESSON_PLACEHOLDER : String := "---"

/-- Python's `" | ".join(parts)` as used by `_combine_content`. -/
def join_pipe : List String → String
  | [] => ""
  | [s] => s
  | s :: rest => s ++ " | " ++ join_pipe rest

/-- `WebtopExtractor._combine_content` from `extractor.py` (lines 405-419):
the lesson topic is kept unless it is falsy or in `[EMPTY_LESSON_PLACEHOLDER, ""]`;
the homework text is kept unless it is falsy or in
`["--", NO_HOMEWORK_PLACEHOLDER, ""]`; the kept parts are joined with `" | "`,
and the empty list yields `""`. -/
def combine_content (lesson_topic homework : String) : String :=
  let combined : List String :=
    (if lesson_topic ≠ "" ∧ lesson_topic ∉ [EMPTY_LESSON_PLACEHOLDER, ""]
      then [lesson_topic] else [])
    ++ (if homework ≠ "" ∧ homework ∉ ["--", NO_HOMEWORK_PLACEHOLDER, ""]
      then [homework] else [])
  if combined ≠ [] then join_pipe combined else ""

/-- The combination function as claim C2 words it: one shared placeholder set
(the "no homework" and "empty lesson" markers, together with the empty string)
is applied to either side; a side is meaningful when it is outside that set. -/
def combine_claimC2 (lesson_topic homework : String) : String :=
  if lesson_topic ∉ ["", NO_HOMEWORK_PLACEHOLDER, EMPTY_LESSON_PLACEHOLDER]
      ∧ homework ∉ ["", NO_HOMEWORK_PLACEHOLDER, EMPTY_LESSON_PLACEHOLDER] then
    lesson_topic ++ " | " ++ homework
  else if lesson_topic ∉ ["", NO_HOMEWORK_PLACEHOLDER, EMPTY_LESSON_PLACEHOLDER] then
    lesson_topic
  else if homework ∉ ["", NO_HOMEWORK_PLACEHOLDER, EMPTY_LESSON_PLACEHOLDER] then
    homework
  else ""

/-- C2 counterexample: the code does not apply one shared placeholder set to
either side.  With the lesson topic equal to the "no homework" marker and an
empty homework text, the claim's reading yields `""`, but
`_combine_content` keeps the lesson topic verbatim (its placeholder list for
the lesson side contains only the "empty lesson" marker). -/
theorem combine_content_shared_placeholder_counterexample :
    combine_content NO_HOMEWORK_PLACEHOLDER "" = NO_HOMEWORK_PLACEHOLDER ∧
    combine_claimC2 NO_HOMEWORK_PLACEHOLDER "" = "" ∧
    NO_HOMEWORK_PLACEHOLDER ≠ "" := by
  refine ⟨by decide, by decide, by decide⟩

/-- C2 (amended): `_combine_content` is commutative-in-emptiness with a
placeholder set per side: the lesson topic is meaningful when non-empty and
different from the "empty lesson" marker `"---"`; the homework text is
meaningful when non-empty and different from `"--"` and from the
"no homework" marker `"אין"`.  If both sides are meaningful the result is
`lesson_topic ++ " | " ++ homework`; if exactly one is meaningful the result
is that side verbatim; otherwise the result is `""`. -/
theorem combine_content_characterization (lesson_topic homework : String) :
    combine_content lesson_topic homework =
      if (lesson_topic ≠ "" ∧ lesson_topic ≠ EMPTY_LESSON_PLACEHOLDER)
          ∧ (homework ≠ "" ∧ homework ≠ "--" ∧ homework ≠ NO_HOMEWORK_PLACEHOLDER) then
        lesson_topic ++ " | " ++ homework
      else if lesson_topic ≠ "" ∧ lesson_topic ≠ EMPTY_LESSON_PLACEHOLDER then
        lesson_topic
      else if homework ≠ "" ∧ homework ≠ "--" ∧ homework ≠ NO_HOMEWORK_PLACEHOLDER then
        homework
      else "" := by
  by_cases hl1 : lesson_topic = ""
  · by_cases hh1 : homework = ""
    · simp [combine_content, combine_claimC2, hl1, hh1, join_pipe]
    · by_cases hh2 : homework = "--"
      · simp [combine_content, hl1, hh1, hh2, join_pipe]
      · by_cases hh3 : homework = NO_HOMEWORK_PLACEHOLDER
        · simp [combine_content, hl1, hh1, hh2, hh3, join_pipe]
        · simp [combine_content, hl1, hh1, hh2, hh3, join_pipe]
  · by_cases hl2 : lesson_topic = EMPTY_LESSON_PLACEHOLDER
    · by_cases hh1 : homework = ""
      · simp [combine_content, hl1, hl2, hh1, join_pipe]
      · by_cases hh2 : homework = "--"
        · simp [combine_content, hl1, hl2, hh1, hh2, join_pipe]
        · by_cases hh3 : homework = NO_HOMEWORK_PLACEHOLDER
          · simp [combine_content, hl1, hl2, hh1, hh2, hh3, join_pipe]
          · simp [combine_content, hl1, hl2, hh1, hh2, hh3, join_pipe]
    · by_cases hh1 : homework = ""
      · simp [combine_content, hl1, hl2, hh1, join_pipe]
      · by_cases hh2 : homework = "--"
        · simp [combine_content, hl1, hl2, hh1, hh2, join_pipe]
        · by_cases hh3 : homework = NO_HOMEWORK_PLACEHOLDER
          · simp [combine_content, hl1, hl2, hh1, hh2, hh3, join_pipe]
          · simp [combine_content, hl1, hl2, hh1, hh2, hh3, join_pipe]

/-! ## `utils.parse_date` (`utils.py`, lines 6-38)

The Python function strips the input and tries five `strptime` formats in
order, returning the first success and raising `ValueError` when none
matches.  CPython's `_strptime` compiles `%d` to the regex
`3[01]|[12]\d|0[1-9]|[1-9]| [1-9]`, `%m` to `1[0-2]|0[1-9]|[1-9]` and `%Y`
to four digits, anchors the match at the start, and rejects any trailing
unmatched text; `datetime` construction then validates the calendar day.
Because every separator in the five formats is a non-digit, ordered
alternation without backtracking is equivalent to the regex here, and the
matchers below implement that alternation directly on `List Char`. -/

/-- Python whitespace characters handled by `str.strip()` (ASCII subset). -/
def is_py_space (c : Char) : Bool :=
  c = ' ' ∨ c = '\t' ∨ c = '\n' ∨ c = '\x0b' ∨ c = '\x0c' ∨ c = '\r'

/-- `str.strip()`: drop leading and trailing whitespace. -/
def pyStrip (s : List Char) : List Char :=
  ((s.dropWhile is_py_space).reverse.dropWhile is_py_space).reverse

/-- ASCII decimal digit test (`\d` on the inputs at hand). -/
def isDigitCh (c : Char) : Bool := '0' ≤ c ∧ c ≤ '9'

/-- Numeric value of a digit character. -/
def digitVal (c : Char) : Nat := c.toNat - 48

/-- The digit character for `n` (meaningful for `n < 10`). -/
def digitChar (n : Nat) : Char := Char.ofNat (48 + n)

/-- The `%d` matcher: CPython's regex `3[01]|[12]\d|0[1-9]|[1-9]| [1-9]`,
alternatives tried in order, returning the parsed day and the rest. -/
def match_day : List Char → Option (Nat × List Char)
  | c1 :: c2 :: rest =>
    if c1 = '3' ∧ (c2 = '0' ∨ c2 = '1') then some (30 + digitVal c2, rest)
    else if (c1 = '1' ∨ c1 = '2') ∧ isDigitCh c2 then
      some (10 * digitVal c1 + digitVal c2, rest)
    else if c1 = '0' ∧ ('1' ≤ c2 ∧ c2 ≤ '9') then some (digitVal c2, rest)
    else if '1' ≤ c1 ∧ c1 ≤ '9' then some (digitVal c1, c2 :: rest)
    else if c1 = ' ' ∧ ('1' ≤ c2 ∧ c2 ≤ '9') then some (digitVal c2, rest)
    else none
  | [c1] => if '1' ≤ c1 ∧ c1 ≤ '9' then some (digitVal c1, []) else none
  | [] => none

/-- The `%m` matcher: CPython's regex `1[0-2]|0[1-9]|[1-9]`. -/
def match_month : List Char → Option (Nat × List Char)
  | c1 :: c2 :: rest =>
    if c1 = '1' ∧ ('0' ≤ c2 ∧ c2 ≤ '2') then some (10 + digitVal c2, rest)
    else if c1 = '0' ∧ ('1' ≤ c2 ∧ c2 ≤ '9') then some (digitVal c2, rest)
    else if '1' ≤ c1 ∧ c1 ≤ '9' then some (digitVal c1, c2 :: rest)
    else none
  | [c1] => if '1' ≤ c1 ∧ c1 ≤ '9' then some (digitVal c1, []) else none
  | [] => none

/-- The `%Y` matcher: exactly four digits. -/
def match_year : List Char → Option (Nat × List Char)
  | c1 :: c2 :: c3 :: c4 :: rest =>
    if isDigitCh c1 ∧ isDigitCh c2 ∧ isDigitCh c3 ∧ isDigitCh c4 then
      some (1000 * digitVal c1 + 100 * digitVal c2 + 10 * digitVal c3 + digitVal c4, rest)
    else none
  | _ => none

/-- A literal separator character in a format string. -/
def match_sep (sep : Char) : List Char → Option (List Char)
  | c :: rest => if c = sep then some rest else none
  | [] => none

/-- Component order of a supported format. -/
inductive FieldOrder where
  | dmy
  | ymd
deriving DecidableEq, Repr

/-- One of the supported `strptime` formats: an order and a separator. -/
structure DateFormat where
  order : FieldOrder
  sep : Char
deriving DecidableEq, Repr

/-- The `date_formats` list of `parse_date`:
`%d-%m-%Y`, `%d/%m/%Y`, `%Y-%m-%d`, `%Y/%m/%d`, `%d.%m.%Y`. -/
def date_formats : List DateFormat :=
  [⟨.dmy, '-'⟩, ⟨.dmy, '/'⟩, ⟨.ymd, '-'⟩, ⟨.ymd, '/'⟩, ⟨.dmy, '.'⟩]

/-- Gregorian leap-year rule used by `datetime`. -/
def is_leap_year (y : Nat) : Bool := (y % 4 = 0 ∧ y % 100 ≠ 0) ∨ y % 400 = 0

/-- Number of days of month `m` in year `y` (as `datetime` validates it). -/
def days_in_month (y m : Nat) : Nat :=
  if m = 2 then (if is_leap_year y then 29 else 28)
  else if m = 4 ∨ m = 6 ∨ m = 9 ∨ m = 11 then 30
  else 31

/-- The value part of a Python `datetime`: a calendar date. -/
structure PyDate where
  year : Nat
  month : Nat
  day : Nat
deriving DecidableEq, Repr

/-- `datetime(year, month, day)` construction: validates ranges and raises
`ValueError` (here `none`) on an out-of-range component. -/
def mk_datetime (y m d : Nat) : Option PyDate :=
  if 1 ≤ y ∧ y ≤ 9999 ∧ 1 ≤ m ∧ m ≤ 12 ∧ 1 ≤ d ∧ d ≤ days_in_month y m then
    some ⟨y, m, d⟩
  else none

/-- `datetime.strptime(s, fmt)` for one of the five supported formats:
match the components in order, require the whole string to be consumed,
then construct the `datetime`. -/
def strptime (fmt : DateFormat) (s : List Char) : Option PyDate :=
  match fmt.order with
  | .dmy => do
    let (d, s1) ← match_day s
    let s2 ← match_sep fmt.sep s1
    let (m, s3) ← match_month s2
    let s4 ← match_sep fmt.sep s3
    let (y, s5) ← match_year s4
    if s5 = [] then mk_datetime y m d else none
  | .ymd => do
    let (y, s1) ← match_year s
    let s2 ← match_sep fmt.sep s1
    let (m, s3) ← match_month s2
    let s4 ← match_sep fmt.sep s3
    let (d, s5) ← match_day s4
    if s5 = [] then mk_datetime y m d else none

/-- The `for fmt in date_formats: try ... except ValueError: continue` loop
of `parse_date`: first successful format wins. -/
def try_formats : List DateFormat → List Char → Option PyDate
  | [], _ => none
  | fmt :: rest, s =>
    match strptime fmt s with
    | some d => some d
    | none => try_formats rest s

/-- `utils.parse_date`: `None` input returns `None`; otherwise the stripped
string is tried against the five formats in order and a failure of all of
them raises `ValueError` (modelled as `Except.error`). -/
def parse_date : Option (List Char) → Except String (Option PyDate)
  | none => .ok none
  | some s =>
    match try_formats date_formats (pyStrip s) with
    | some d => .ok (some d)
    | none => .error "Could not parse date"

example : parse_date (some "21-01-2026".toList) = .ok (some ⟨2026, 1, 21⟩) := rfl
example : parse_date (some "  2026/01/21 ".toList) = .ok (some ⟨2026, 1, 21⟩) := rfl
example : parse_date (some "21.01.2026".toList) = .ok (some ⟨2026, 1, 21⟩) := rfl
example : parse_date (some "1-1-2026".toList) = .ok (some ⟨2026, 1, 1⟩) := rfl
example : parse_date (some "32-01-2026".toList) = .error "Could not parse date" := rfl
example : parse_date (some "31-02-2026".toList) = .error "Could not parse date" := rfl
example : parse_date (some "29-02-2024".toList) = .ok (some ⟨2024, 2, 29⟩) := rfl
example : parse_date none = .ok none := rfl

/-! ### Rendering a calendar date in the supported formats -/

/-- Zero-padded two-digit rendering (`%02d`). -/
def pad2 (n : Nat) : List Char := [digitChar (n / 10), digitChar (n % 10)]

/-- Zero-padded four-digit rendering (`%04d`). -/
def pad4 (n : Nat) : List Char :=
  [digitChar (n / 1000), digitChar (n / 100 % 10), digitChar (n / 10 % 10), digitChar (n % 10)]

/-- Rendering of a date in a supported format, components zero-padded as the
format names them (DD, MM, YYYY). -/
def render (fmt : DateFormat) (dt : PyDate) : List Char :=
  match fmt.order with
  | .dmy => pad2 dt.day ++ fmt.sep :: (pad2 dt.month ++ fmt.sep :: pad4 dt.year)
  | .ymd => pad4 dt.year ++ fmt.sep :: (pad2 dt.month ++ fmt.sep :: pad2 dt.day)

theorem isDigitCh_digitChar (k : Nat) (h : k < 10) : isDigitCh (digitChar k) = true := by
  interval_cases k <;> decide

theorem digitVal_digitChar (k : Nat) (h : k < 10) : digitVal (digitChar k) = k := by
  interval_cases k <;> decide

theorem is_py_space_digitChar (k : Nat) (h : k < 10) : is_py_space (digitChar k) = false := by
  interval_cases k <;> decide

theorem match_day_pad2 (d : Nat) (h1 : 1 ≤ d) (h2 : d ≤ 31) (rest : List Char) :
    match_day (pad2 d ++ rest) = some (d, rest) := by
  interval_cases d <;> rfl

theorem match_month_pad2 (m : Nat) (h1 : 1 ≤ m) (h2 : m ≤ 12) (rest : List Char) :
    match_month (pad2 m ++ rest) = some (m, rest) := by
  interval_cases m <;> rfl

theorem match_year_pad4 (y : Nat) (h : y ≤ 9999) (rest : List Char) :
    match_year (pad4 y ++ rest) = some (y, rest) := by
  have h1 : y / 1000 < 10 := by omega
  have h2 : y / 100 % 10 < 10 := Nat.mod_lt _ (by norm_num)
  have h3 : y / 10 % 10 < 10 := Nat.mod_lt _ (by norm_num)
  have h4 : y % 10 < 10 := Nat.mod_lt _ (by norm_num)
  simp only [pad4, List.cons_append, List.nil_append, match_year,
    isDigitCh_digitChar _ h1, isDigitCh_digitChar _ h2, isDigitCh_digitChar _ h3,
    isDigitCh_digitChar _ h4, digitVal_digitChar _ h1, digitVal_digitChar _ h2,
    digitVal_digitChar _ h3, digitVal_digitChar _ h4, true_and, if_true]
  have : 1000 * (y / 1000) + 100 * (y / 100 % 10) + 10 * (y / 10 % 10) + y % 10 = y := by
    omega
  rw [this]

theorem match_year_pad4_nil (y : Nat) (h : y ≤ 9999) : match_year (pad4 y) = some (y, []) := by
  have := match_year_pad4 y h []
  simpa using this

/-! ### Cross-format failure lemmas

`parse_date` tries the formats in order, so proving which format fires on
which rendering needs the earlier formats to fail on it. -/

theorem match_sep_ne (sep c : Char) (h : c ≠ sep) (rest : List Char) :
    match_sep sep (c :: rest) = none := by
  simp [match_sep, h]

theorem match_year_nondigit3 (c1 c2 c3 : Char) (rest : List Char)
    (h : isDigitCh c3 = false) : match_year (c1 :: c2 :: c3 :: rest) = none := by
  cases rest with
  | nil => rfl
  | cons c4 r => simp [match_year, h]

/-- On a list starting with three digits, `%d` either fails or leaves a rest
that starts with a digit (it consumes at most two characters). -/
theorem match_day_digits (A B C : Char) (rest : List Char)
    (hA : isDigitCh A = true) (hB : isDigitCh B = true) (hC : isDigitCh C = true) :
    match_day (A :: B :: C :: rest) = none ∨
      ∃ v c r, match_day (A :: B :: C :: rest) = some (v, c :: r) ∧ isDigitCh c = true := by
  simp only [match_day]
  split_ifs with h1 h2 h3 h4 h5
  · exact Or.inr ⟨_, C, rest, rfl, hC⟩
  · exact Or.inr ⟨_, C, rest, rfl, hC⟩
  · exact Or.inr ⟨_, C, rest, rfl, hC⟩
  · exact Or.inr ⟨_, B, C :: rest, rfl, hB⟩
  · exfalso
    obtain ⟨hsp, _⟩ := h5
    rw [hsp] at hA
    exact absurd hA (by decide)
  · exact Or.inl rfl

/-- A day-month-year format fails on any string starting with four digits:
the separator never matches the unconsumed digits of the year. -/
theorem strptime_dmy_on_four_digits (fs A B C D : Char) (rest : List Char)
    (hfs : isDigitCh fs = false) (hA : isDigitCh A = true) (hB : isDigitCh B = true)
    (hC : isDigitCh C = true) :
    strptime ⟨.dmy, fs⟩ (A :: B :: C :: D :: rest) = none := by
  rcases match_day_digits A B C (D :: rest) hA hB hC with h | ⟨v, c, r, h, hc⟩
  · simp [strptime, h]
  · have hne : c ≠ fs := by
      intro e
      rw [e, hfs] at hc
      exact Bool.false_ne_true hc
    simp [strptime, h, match_sep_ne _ _ hne]

/-- A day-month-year format fails on a rendering whose first separator
differs from its own. -/
theorem strptime_dmy_sep_mismatch (fs s : Char) (h : s ≠ fs) (d : Nat)
    (hd1 : 1 ≤ d) (hd2 : d ≤ 31) (rest : List Char) :
    strptime ⟨.dmy, fs⟩ (pad2 d ++ s :: rest) = none := by
  simp [strptime, match_day_pad2 d hd1 hd2, match_sep_ne _ _ h]

/-- A year-month-day format fails on a rendering whose first separator
differs from its own. -/
theorem strptime_ymd_sep_mismatch (fs s : Char) (h : s ≠ fs) (y : Nat)
    (hy : y ≤ 9999) (rest : List Char) :
    strptime ⟨.ymd, fs⟩ (pad4 y ++ s :: rest) = none := by
  simp [strptime, match_year_pad4 y hy, match_sep_ne _ _ h]

/-- A year-month-day format fails on a day-month-year rendering: the third
character is a separator, so `%Y` cannot match four digits. -/
theorem strptime_ymd_on_dmy (fs s : Char) (hs : isDigitCh s = false) (d : Nat)
    (rest : List Char) :
    strptime ⟨.ymd, fs⟩ (pad2 d ++ s :: rest) = none := by
  simp [strptime, pad2, match_year_nondigit3 _ _ _ _ hs]

/-- Successful `strptime` of a day-month-year rendering with its own
separator. -/
theorem strptime_dmy_render (fs : Char) (y m d : Nat)
    (hy1 : 1 ≤ y) (hy2 : y ≤ 9999) (hm1 : 1 ≤ m) (hm2 : m ≤ 12)
    (hd1 : 1 ≤ d) (hd2 : d ≤ days_in_month y m) :
    strptime ⟨.dmy, fs⟩ (pad2 d ++ fs :: (pad2 m ++ fs :: pad4 y)) =
      some ⟨y, m, d⟩ := by
  have hd31 : d ≤ 31 := le_trans hd2 (by unfold days_in_month; split_ifs <;> omega)
  simp [strptime, match_day_pad2 d hd1 hd31, match_sep,
    match_month_pad2 m hm1 hm2, match_year_pad4_nil y hy2, mk_datetime,
    hy1, hy2, hm1, hm2, hd1, hd2]

/-- Successful `strptime` of a year-month-day rendering with its own
separator. -/
theorem strptime_ymd_render (fs : Char) (y m d : Nat)
    (hy1 : 1 ≤ y) (hy2 : y ≤ 9999) (hm1 : 1 ≤ m) (hm2 : m ≤ 12)
    (hd1 : 1 ≤ d) (hd2 : d ≤ days_in_month y m) :
    strptime ⟨.ymd, fs⟩ (pad4 y ++ fs :: (pad2 m ++ fs :: pad2 d)) =
      some ⟨y, m, d⟩ := by
  have hd31 : d ≤ 31 := le_trans hd2 (by unfold days_in_month; split_ifs <;> omega)
  have hday : match_day (pad2 d) = some (d, []) := by
    have := match_day_pad2 d hd1 hd31 []
    simpa using this
  simp [strptime, match_year_pad4 y hy2, match_sep,
    match_month_pad2 m hm1 hm2, hday, mk_datetime,
    hy1, hy2, hm1, hm2, hd1, hd2]

/-! ### Stripping lemmas -/

theorem dropWhile_append_all (p : Char → Bool) (l1 l2 : List Char)
    (h : ∀ c ∈ l1, p c = true) :
    (l1 ++ l2).dropWhile p = l2.dropWhile p := by
  induction l1 with
  | nil => simp
  | cons a t ih =>
    have ha : p a = true := h a (List.mem_cons_self a t)
    simp only [List.cons_append, List.dropWhile_cons, ha, if_true]
    exact ih fun c hc => h c (List.mem_cons_of_mem _ hc)

theorem dropWhile_cons_false (p : Char → Bool) (a : Char) (l : List Char)
    (h : p a = false) : (a :: l).dropWhile p = a :: l := by
  simp [List.dropWhile_cons, h]

/-- Stripping a whitespace-padded string whose core starts with `a` and ends
with `b`, both non-whitespace, recovers exactly the core. -/
theorem pyStrip_sandwich (w1 w2 mid : List Char) (a b : Char)
    (hw1 : ∀ c ∈ w1, is_py_space c = true) (hw2 : ∀ c ∈ w2, is_py_space c = true)
    (ha : is_py_space a = false) (hb : is_py_space b = false) :
    pyStrip (w1 ++ (a :: mid ++ [b]) ++ w2) = a :: mid ++ [b] := by
  unfold pyStrip
  rw [List.append_assoc, dropWhile_append_all _ _ _ hw1]
  rw [show (a :: mid ++ [b]) ++ w2 = a :: (mid ++ [b] ++ w2) by simp]
  rw [dropWhile_cons_false _ _ _ ha]
  rw [show a :: (mid ++ [b] ++ w2) = (a :: mid ++ [b]) ++ w2 by simp]
  rw [List.reverse_append]
  rw [dropWhile_append_all _ _ _ (fun c hc => hw2 c (by simpa using hc))]
  rw [show (a :: mid ++ [b]).reverse = b :: (a :: mid).reverse by simp]
  rw [dropWhile_cons_false _ _ _ hb]
  rw [show b :: (a :: mid).reverse = (a :: mid ++ [b]).reverse by simp]
  rw [List.reverse_reverse]

/-! ### Claims C6 and C7 -/

theorem try_formats_eq_none (l : List DateFormat) (s : List Char)
    (h : ∀ fmt ∈ l, strptime fmt s = none) : try_formats l s = none := by
  induction l with
  | nil => rfl
  | cons f t ih =>
    have hf := h f (List.mem_cons_self f t)
    simp only [try_formats, hf]
    exact ih fun g hg => h g (List.mem_cons_of_mem _ hg)

/-- C6: any non-`None` input on which all five supported formats fail after
stripping makes `parse_date` raise `DateParseError` (`ValueError`); the
function never silently returns the `None` default for a string input, and
in particular calendar-invalid, date-like strings such as day 32 and
February 31 raise. -/
theorem parse_date_unsupported_raises :
    (∀ s : List Char, (∀ fmt ∈ date_formats, strptime fmt (pyStrip s) = none) →
        parse_date (some s) = .error "Could not parse date") ∧
    (∀ s : List Char, parse_date (some s) ≠ .ok none) ∧
    parse_date (some "32-01-2026".toList) = .error "Could not parse date" ∧
    parse_date (some "31-02-2026".toList) = .error "Could not parse date" := by
  refine ⟨?_, ?_, rfl, rfl⟩
  · intro s h
    simp [parse_date, try_formats_eq_none _ _ h]
  · intro s
    simp only [parse_date]
    rcases htf : try_formats date_formats (pyStrip s) with _ | d <;> simp

/-- C6 witness: the calendar-invalid string "31-02-2026" satisfies the
hypothesis (every format fails on it) and raises. -/
theorem parse_date_unsupported_raises_witness :
    (∀ fmt ∈ date_formats, strptime fmt (pyStrip "31-02-2026".toList) = none) ∧
    parse_date (some "31-02-2026".toList) = .error "Could not parse date" :=
  ⟨by decide, parse_date_unsupported_raises.1 _ (by decide)⟩

/-- C7: format invariance.  For every calendar date, rendering it in any of
the five supported formats (components zero-padded, optionally surrounded
by whitespace) and parsing with `parse_date` yields the same canonical
date. -/
theorem parse_date_format_invariance
    (y m d : Nat) (hy1 : 1 ≤ y) (hy2 : y ≤ 9999) (hm1 : 1 ≤ m) (hm2 : m ≤ 12)
    (hd1 : 1 ≤ d) (hd2 : d ≤ days_in_month y m) :
    ∀ fmt ∈ date_formats, ∀ w1 w2 : List Char,
      (∀ c ∈ w1, is_py_space c = true) → (∀ c ∈ w2, is_py_space c = true) →
      parse_date (some (w1 ++ render fmt ⟨y, m, d⟩ ++ w2)) = .ok (some ⟨y, m, d⟩) := by
  intro fmt hfmt w1 w2 hw1 hw2
  have hd31 : d ≤ 31 := le_trans hd2 (by unfold days_in_month; split_ifs <;> omega)
  have hdd : d / 10 < 10 := by omega
  have hdm : d % 10 < 10 := by omega
  have hmd : m / 10 < 10 := by omega
  have hmm : m % 10 < 10 := by omega
  have hy1000 : y / 1000 < 10 := by omega
  have hy100 : y / 100 % 10 < 10 := by omega
  have hy10 : y / 10 % 10 < 10 := by omega
  have hy0 : y % 10 < 10 := by omega
  simp only [date_formats, List.mem_cons, List.not_mem_nil, or_false] at hfmt
  rcases hfmt with rfl | rfl | rfl | rfl | rfl
  · -- %d-%m-%Y
    have hshape : render ⟨.dmy, '-'⟩ ⟨y, m, d⟩ =
        digitChar (d / 10) ::
          ([digitChar (d % 10), '-', digitChar (m / 10), digitChar (m % 10), '-',
            digitChar (y / 1000), digitChar (y / 100 % 10), digitChar (y / 10 % 10)]
            ++ [digitChar (y % 10)]) := by
      simp [render, pad2, pad4]
    have hstrip : pyStrip (w1 ++ render ⟨.dmy, '-'⟩ ⟨y, m, d⟩ ++ w2) =
        render ⟨.dmy, '-'⟩ ⟨y, m, d⟩ := by
      rw [hshape]
      exact pyStrip_sandwich w1 w2 _ _ _ hw1 hw2 (is_py_space_digitChar _ hdd)
        (is_py_space_digitChar _ hy0)
    have hcore : render ⟨.dmy, '-'⟩ ⟨y, m, d⟩ =
        pad2 d ++ '-' :: (pad2 m ++ '-' :: pad4 y) := rfl
    have h1 : strptime ⟨.dmy, '-'⟩ (pad2 d ++ '-' :: (pad2 m ++ '-' :: pad4 y)) =
        some ⟨y, m, d⟩ := strptime_dmy_render '-' y m d hy1 hy2 hm1 hm2 hd1 hd2
    simp only [parse_date]
    rw [hstrip, hcore]
    simp only [date_formats, try_formats, h1]
  · -- %d/%m/%Y
    have hshape : render ⟨.dmy, '/'⟩ ⟨y, m, d⟩ =
        digitChar (d / 10) ::
          ([digitChar (d % 10), '/', digitChar (m / 10), digitChar (m % 10), '/',
            digitChar (y / 1000), digitChar (y / 100 % 10), digitChar (y / 10 % 10)]
            ++ [digitChar (y % 10)]) := by
      simp [render, pad2, pad4]
    have hstrip : pyStrip (w1 ++ render ⟨.dmy, '/'⟩ ⟨y, m, d⟩ ++ w2) =
        render ⟨.dmy, '/'⟩ ⟨y, m, d⟩ := by
      rw [hshape]
      exact pyStrip_sandwich w1 w2 _ _ _ hw1 hw2 (is_py_space_digitChar _ hdd)
        (is_py_space_digitChar _ hy0)
    have hcore : render ⟨.dmy, '/'⟩ ⟨y, m, d⟩ =
        pad2 d ++ '/' :: (pad2 m ++ '/' :: pad4 y) := rfl
    have h1 : strptime ⟨.dmy, '-'⟩ (pad2 d ++ '/' :: (pad2 m ++ '/' :: pad4 y)) = none :=
      strptime_dmy_sep_mismatch '-' '/' (by decide) d hd1 hd31 _
    have h2 : strptime ⟨.dmy, '/'⟩ (pad2 d ++ '/' :: (pad2 m ++ '/' :: pad4 y)) =
        some ⟨y, m, d⟩ := strptime_dmy_render '/' y m d hy1 hy2 hm1 hm2 hd1 hd2
    simp only [parse_date]
    rw [hstrip, hcore]
    simp only [date_formats, try_formats, h1, h2]
  · -- %Y-%m-%d
    have hshape : render ⟨.ymd, '-'⟩ ⟨y, m, d⟩ =
        digitChar (y / 1000) ::
          ([digitChar (y / 100 % 10), digitChar (y / 10 % 10), digitChar (y % 10), '-',
            digitChar (m / 10), digitChar (m % 10), '-', digitChar (d / 10)]
            ++ [digitChar (d % 10)]) := by
      simp [render, pad2, pad4]
    have hstrip : pyStrip (w1 ++ render ⟨.ymd, '-'⟩ ⟨y, m, d⟩ ++ w2) =
        render ⟨.ymd, '-'⟩ ⟨y, m, d⟩ := by
      rw [hshape]
      exact pyStrip_sandwich w1 w2 _ _ _ hw1 hw2 (is_py_space_digitChar _ hy1000)
        (is_py_space_digitChar _ hdm)
    have hcore : render ⟨.ymd, '-'⟩ ⟨y, m, d⟩ =
        pad4 y ++ '-' :: (pad2 m ++ '-' :: pad2 d) := rfl
    have hc4 : pad4 y ++ '-' :: (pad2 m ++ '-' :: pad2 d) =
        digitChar (y / 1000) :: digitChar (y / 100 % 10) :: digitChar (y / 10 % 10) ::
          digitChar (y % 10) :: ('-' :: (pad2 m ++ '-' :: pad2 d)) := by
      simp [pad4]
    have h1 : strptime ⟨.dmy, '-'⟩ (pad4 y ++ '-' :: (pad2 m ++ '-' :: pad2 d)) = none := by
      rw [hc4]
      exact strptime_dmy_on_four_digits '-' _ _ _ _ _ (by decide)
        (isDigitCh_digitChar _ hy1000) (isDigitCh_digitChar _ hy100)
        (isDigitCh_digitChar _ hy10)
    have h2 : strptime ⟨.dmy, '/'⟩ (pad4 y ++ '-' :: (pad2 m ++ '-' :: pad2 d)) = none := by
      rw [hc4]
      exact strptime_dmy_on_four_digits '/' _ _ _ _ _ (by decide)
        (isDigitCh_digitChar _ hy1000) (isDigitCh_digitChar _ hy100)
        (isDigitCh_digitChar _ hy10)
    have h3 : strptime ⟨.ymd, '-'⟩ (pad4 y ++ '-' :: (pad2 m ++ '-' :: pad2 d)) =
        some ⟨y, m, d⟩ := strptime_ymd_render '-' y m d hy1 hy2 hm1 hm2 hd1 hd2
    simp only [parse_date]
    rw [hstrip, hcore]
    simp only [date_formats, try_formats, h1, h2, h3]
  · -- %Y/%m/%d
    have hshape : render ⟨.ymd, '/'⟩ ⟨y, m, d⟩ =
        digitChar (y / 1000) ::
          ([digitChar (y / 100 % 10), digitChar (y / 10 % 10), digitChar (y % 10), '/',
            digitChar (m / 10), digitChar (m % 10), '/', digitChar (d / 10)]
            ++ [digitChar (d % 10)]) := by
      simp [render, pad2, pad4]
    have hstrip : pyStrip (w1 ++ render ⟨.ymd, '/'⟩ ⟨y, m, d⟩ ++ w2) =
        render ⟨.ymd, '/'⟩ ⟨y, m, d⟩ := by
      rw [hshape]
      exact pyStrip_sandwich w1 w2 _ _ _ hw1 hw2 (is_py_space_digitChar _ hy1000)
        (is_py_space_digitChar _ hdm)
    have hcore : render ⟨.ymd, '/'⟩ ⟨y, m, d⟩ =
        pad4 y ++ '/' :: (pad2 m ++ '/' :: pad2 d) := rfl
    have hc4 : pad4 y ++ '/' :: (pad2 m ++ '/' :: pad2 d) =
        digitChar (y / 1000) :: digitChar (y / 100 % 10) :: digitChar (y / 10 % 10) ::
          digitChar (y % 10) :: ('/' :: (pad2 m ++ '/' :: pad2 d)) := by
      simp [pad4]
    have h1 : strptime ⟨.dmy, '-'⟩ (pad4 y ++ '/' :: (pad2 m ++ '/' :: pad2 d)) = none := by
      rw [hc4]
      exact strptime_dmy_on_four_digits '-' _ _ _ _ _ (by decide)
        (isDigitCh_digitChar _ hy1000) (isDigitCh_digitChar _ hy100)
        (isDigitCh_digitChar _ hy10)
    have h2 : strptime ⟨.dmy, '/'⟩ (pad4 y ++ '/' :: (pad2 m ++ '/' :: pad2 d)) = none := by
      rw [hc4]
      exact strptime_dmy_on_four_digits '/' _ _ _ _ _ (by decide)
        (isDigitCh_digitChar _ hy1000) (isDigitCh_digitChar _ hy100)
        (isDigitCh_digitChar _ hy10)
    have h3 : strptime ⟨.ymd, '-'⟩ (pad4 y ++ '/' :: (pad2 m ++ '/' :: pad2 d)) = none :=
      strptime_ymd_sep_mismatch '-' '/' (by decide) y hy2 _
    have h4 : strptime ⟨.ymd, '/'⟩ (pad4 y ++ '/' :: (pad2 m ++ '/' :: pad2 d)) =
        some ⟨y, m, d⟩ := strptime_ymd_render '/' y m d hy1 hy2 hm1 hm2 hd1 hd2
    simp only [parse_date]
    rw [hstrip, hcore]
    simp only [date_formats, try_formats, h1, h2, h3, h4]
  · -- %d.%m.%Y
    have hshape : render ⟨.dmy, '.'⟩ ⟨y, m, d⟩ =
        digitChar (d / 10) ::
          ([digitChar (d % 10), '.', digitChar (m / 10), digitChar (m % 10), '.',
            digitChar (y / 1000), digitChar (y / 100 % 10), digitChar (y / 10 % 10)]
            ++ [digitChar (y % 10)]) := by
      simp [render, pad2, pad4]
    have hstrip : pyStrip (w1 ++ render ⟨.dmy, '.'⟩ ⟨y, m, d⟩ ++ w2) =
        render ⟨.dmy, '.'⟩ ⟨y, m, d⟩ := by
      rw [hshape]
      exact pyStrip_sandwich w1 w2 _ _ _ hw1 hw2 (is_py_space_digitChar _ hdd)
        (is_py_space_digitChar _ hy0)
    have hcore : render ⟨.dmy, '.'⟩ ⟨y, m, d⟩ =
        pad2 d ++ '.' :: (pad2 m ++ '.' :: pad4 y) := rfl
    have h1 : strptime ⟨.dmy, '-'⟩ (pad2 d ++ '.' :: (pad2 m ++ '.' :: pad4 y)) = none :=
      strptime_dmy_sep_mismatch '-' '.' (by decide) d hd1 hd31 _
    have h2 : strptime ⟨.dmy, '/'⟩ (pad2 d ++ '.' :: (pad2 m ++ '.' :: pad4 y)) = none :=
      strptime_dmy_sep_mismatch '/' '.' (by decide) d hd1 hd31 _
    have h3 : strptime ⟨.ymd, '-'⟩ (pad2 d ++ '.' :: (pad2 m ++ '.' :: pad4 y)) = none :=
      strptime_ymd_on_dmy '-' '.' (by decide) d _
    have h4 : strptime ⟨.ymd, '/'⟩ (pad2 d ++ '.' :: (pad2 m ++ '.' :: pad4 y)) = none :=
      strptime_ymd_on_dmy '/' '.' (by decide) d _
    have h5 : strptime ⟨.dmy, '.'⟩ (pad2 d ++ '.' :: (pad2 m ++ '.' :: pad4 y)) =
        some ⟨y, m, d⟩ := strptime_dmy_render '.' y m d hy1 hy2 hm1 hm2 hd1 hd2
    simp only [parse_date]
    rw [hstrip, hcore]
    simp only [date_formats, try_formats, h1, h2, h3, h4, h5]

/-- C7 witness: instantiated at 29 February 2024 in the `%Y/%m/%d` format
with whitespace padding. -/
theorem parse_date_format_invariance_witness :
    parse_date (some (" ".toList ++ render ⟨.ymd, '/'⟩ ⟨2024, 2, 29⟩ ++ "\n".toList)) =
      .ok (some ⟨2024, 2, 29⟩) :=
  parse_date_format_invariance 2024 2 29 (by decide) (by decide) (by decide) (by decide)
    (by decide) (by decide) ⟨.ymd, '/'⟩ (by decide) _ _ (by decide) (by decide)

/-! ## `WebtopExtractor` (`extractor.py`)

Cells are abstracted to what the extractor reads from them: the
`text_content()` result, the first nested button/link of the subject cell
with its text, and the anchor/image descendants of the attachment cell.
Per-cell lookups whose exceptions the code catches (each such catch returns
`""` or skips the element) are modelled by the corresponding `none`/empty
data.  The raise points the code leaves unguarded — the row-list and
cell-list locator calls in `_extract_table_data` — are modelled as
`Except.error` inputs. -/

/-- Python `str.split()`: split on whitespace runs, discarding empties;
`cur` is the reversed word being accumulated. -/
def py_words_aux : List Char → List Char → List (List Char)
  | [], cur => if cur = [] then [] else [cur.reverse]
  | c :: rest, cur =>
    if is_py_space c then
      (if cur = [] then py_words_aux rest [] else cur.reverse :: py_words_aux rest [])
    else py_words_aux rest (c :: cur)

/-- Python `str.split()` with no separator argument. -/
def py_words (l : List Char) : List (List Char) := py_words_aux l []

/-- Python `" ".join(words)`. -/
def join_space : List (List Char) → List Char
  | [] => []
  | [w] => w
  | w :: rest => w ++ ' ' :: join_space rest

/-- One step-bounded pass of Python `str.replace(pat, "")`: scan left to
right, removing each non-overlapping occurrence of `pat`.  The fuel is the
input length, which suffices because each step consumes at least one
character. -/
def remove_all_fuel (pat : List Char) : Nat → List Char → List Char
  | 0, l => l
  | _ + 1, [] => []
  | fuel + 1, c :: rest =>
    if pat ≠ [] ∧ pat.isPrefixOf (c :: rest) then
      remove_all_fuel pat fuel ((c :: rest).drop pat.length)
    else c :: remove_all_fuel pat fuel rest

/-- Python `s.replace(pat, "")`. -/
def remove_all (pat l : List Char) : List Char := remove_all_fuel pat l.length l

/-- The label prefix "נושא שיעור:" stripped by `_extract_cell_text`. -/
def LESSON_LABEL : List Char := "נושא שיעור:".toList

/-- The label prefix "שיעורי בית:" stripped by `_extract_cell_text`. -/
def HOMEWORK_LABEL : List Char := "שיעורי בית:".toList

/-- An attachment extracted by `_extract_attached_files`. -/
inductive FileRef where
  | link (href text : String)
  | image (src alt : String)
deriving DecidableEq, Repr

/-- Abstract view of a table cell: `text_content()` (with `none` for a null
or failed read), the first nested button/link of the cell together with its
text, and the anchor (`href`, text) and image (`src`, `alt`) descendants. -/
structure Cell where
  text : Option String
  subject_btn : Option (Option String)
  links : List (Option String × Option String)
  imgs : List (Option String × Option String)
deriving DecidableEq, Repr

/-- `WebtopExtractor._extract_cell_text` (lines 314-337): collapse
whitespace, strip the two label prefixes, strip, and map the placeholder
tokens to the empty string; a null text or an error yields `""`. -/
def extract_cell_text (c : Cell) : String :=
  match c.text with
  | none => ""
  | some t =>
    if t = "" then ""
    else
      let collapsed := join_space (py_words t.toList)
      let unlabeled := pyStrip (remove_all HOMEWORK_LABEL (remove_all LESSON_LABEL collapsed))
      let s := String.mk unlabeled
      if s = "-`" ∨ s = "-" ∨ s = "`" ∨ s = "--" then "" else s

/-- The fallback of `_extract_subject`: the stripped cell text when truthy. -/
def subject_from_cell_text (c : Cell) : String :=
  match c.text with
  | some t => if t ≠ "" then String.mk (pyStrip t.toList) else ""
  | none => ""

/-- `WebtopExtractor._extract_subject` (lines 339-363): prefer the stripped
text of a nested button/link; fall back to the stripped cell text. -/
def extract_subject (c : Cell) : String :=
  match c.subject_btn with
  | some (some t) => if t ≠ "" then String.mk (pyStrip t.toList) else subject_from_cell_text c
  | some none => subject_from_cell_text c
  | none => subject_from_cell_text c

/-- `WebtopExtractor._extract_attached_files` (lines 365-403): keep anchors
that have an `href` (with stripped text) and images that have a `src`
(with stripped alt); elements missing the defining attribute are skipped. -/
def extract_attached_files (c : Cell) : List FileRef :=
  (c.links.filterMap fun pr =>
    match pr.1 with
    | some h =>
      some (.link h (match pr.2 with | some t => String.mk (pyStrip t.toList) | none => ""))
    | none => none)
  ++ (c.imgs.filterMap fun pr =>
    match pr.1 with
    | some s =>
      some (.image s (match pr.2 with | some a => String.mk (pyStrip a.toList) | none => ""))
    | none => none)

/-- A homework record as built in `_extract_table_data` (lines 291-301). -/
structure HomeworkRecord where
  hour : String
  subject : String
  teacher : String
  lesson_topic : String
  homework : String
  combined : String
  status : String
  attached_files : List FileRef
  date : String
deriving DecidableEq, Repr

/-- The attachment source of a row: the 7th cell when present. -/
def attached_from (cells : List Cell) : List FileRef :=
  match cells.drop 6 with
  | c :: _ => extract_attached_files c
  | [] => []

/-- The per-row body of `_extract_table_data` (lines 264-310): rows with
fewer than six cells are ignored; cells are read positionally (hour,
subject, teacher, status, lesson topic, homework, optional attachments);
the row is kept only when the subject is non-empty. -/
def process_row (cells : List Cell) (date_str : String) : List HomeworkRecord :=
  match cells with
  | c0 :: c1 :: c2 :: c3 :: c4 :: c5 :: rest =>
    let hour := extract_cell_text c0
    let subject := extract_subject c1
    let teacher := extract_cell_text c2
    let status := extract_cell_text c3
    let lesson_topic := extract_cell_text c4
    let homework := extract_cell_text c5
    let attached_files :=
      match rest with
      | c6 :: _ => extract_attached_files c6
      | [] => []
    let combined := combine_content lesson_topic homework
    if subject ≠ "" then
      [⟨hour, subject, teacher, lesson_topic, homework, combined, status,
        attached_files, date_str⟩]
    else []
  | _ => []

/-- The row loop of `_extract_table_data`.  A row whose cell-list lookup
raises aborts the loop; the `Except.error` payload records the list
accumulated up to the failure point, which the Python exception discards
(the caller never sees it). -/
def extract_table_rows :
    List (Except Unit (List Cell)) → String → List HomeworkRecord →
      Except (List HomeworkRecord) (List HomeworkRecord)
  | [], _, acc => .ok acc
  | .error _ :: _, _, acc => .error acc
  | .ok cells :: rest, ds, acc => extract_table_rows rest ds (acc ++ process_row cells ds)

/-- `WebtopExtractor._extract_table_data` (lines 250-312) over an abstract
row fetch: a failing row-list lookup raises before any accumulation. -/
def extract_table_data (fetched : Except Unit (List (Except Unit (List Cell))))
    (date_str : String) : Except (List HomeworkRecord) (List HomeworkRecord) :=
  match fetched with
  | .error _ => .error []
  | .ok rows => extract_table_rows rows date_str []

/-- Environment of `extract_homework`: outcomes of the page operations it
performs, in program order.  `find_date_on_page` and the per-selector table
lookups catch their own exceptions in the source, so they are total here;
the load-state wait, the heading search and the row fetch can raise. -/
structure ExtractEnv where
  wait_load : Except Unit Unit
  target_date_str : String
  find_date_on_page : Bool
  navigate_result : Except Unit Bool
  find_heading : Except Unit (Option Unit)
  find_table : Except Unit (Option Unit)
  fetch_rows : Except Unit (List (Except Unit (List Cell)))
deriving Repr

/-- The tail of `extract_homework` once the date is known to be on the
page: heading lookup, table lookup, table extraction.  Any raise lands in
the function's `except` clause, which returns the outer accumulator — still
`[]`, because the single assignment to it happens only after
`_extract_table_data` returns. -/
def extract_homework_found (env : ExtractEnv) : List HomeworkRecord :=
  match env.find_heading with
  | .error _ => []
  | .ok none => []
  | .ok (some _) =>
    match env.find_table with
    | .error _ => []
    | .ok none => []
    | .ok (some _) =>
      match extract_table_data env.fetch_rows env.target_date_str with
      | .ok l => l
      | .error _ => []

/-- `WebtopExtractor.extract_homework` (lines 25-86): wait for load, check
the date on the page, paginate to it if needed, then extract; every raise
is caught and the (`[]`-valued) outer accumulator is returned. -/
def extract_homework (env : ExtractEnv) : List HomeworkRecord :=
  match env.wait_load with
  | .error _ => []
  | .ok _ =>
    if env.find_date_on_page then extract_homework_found env
    else
      match env.navigate_result with
      | .error _ => []
      | .ok false => []
      | .ok true => extract_homework_found env

example : extract_cell_text ⟨some "  נושא שיעור:  פרק   5 ", none, [], []⟩ = "פרק 5" := by
  decide

example : extract_cell_text ⟨some " -- ", none, [], []⟩ = "" := by decide

example : extract_subject ⟨some "raw", some (some " מתמטיקה "), [], []⟩ = "מתמטיקה" := by
  decide

/-! ### Claims C9, C10 and C3 -/

theorem process_row_mem_subject (cells : List Cell) (ds : String) (r : HomeworkRecord)
    (h : r ∈ process_row cells ds) : r.subject ≠ "" := by
  rcases cells with _ | ⟨c0, cells⟩
  · simp [process_row] at h
  rcases cells with _ | ⟨c1, cells⟩
  · simp [process_row] at h
  rcases cells with _ | ⟨c2, cells⟩
  · simp [process_row] at h
  rcases cells with _ | ⟨c3, cells⟩
  · simp [process_row] at h
  rcases cells with _ | ⟨c4, cells⟩
  · simp [process_row] at h
  rcases cells with _ | ⟨c5, cells⟩
  · simp [process_row] at h
  by_cases hs : extract_subject c1 = ""
  · simp [process_row, hs] at h
  · simp [process_row, hs] at h
    subst h
    simpa using hs

theorem extract_table_rows_subject (rows : List (Except Unit (List Cell))) (ds : String)
    (acc : List HomeworkRecord) (hacc : ∀ r ∈ acc, r.subject ≠ "") (l : List HomeworkRecord)
    (hl : extract_table_rows rows ds acc = .ok l ∨ extract_table_rows rows ds acc = .error l) :
    ∀ r ∈ l, r.subject ≠ "" := by
  induction rows generalizing acc with
  | nil =>
    rcases hl with hl | hl
    · cases hl
      exact hacc
    · cases hl
  | cons row rest ih =>
    rcases row with e | cells
    · rcases hl with hl | hl
      · cases hl
      · cases hl
        exact hacc
    · refine ih _ ?_ hl
      intro r hr
      rcases List.mem_append.1 hr with h | h
      · exact hacc r h
      · exact process_row_mem_subject _ _ _ h

/-- C9: no record returned by the extractor has an empty subject, and a row
with at least six cells whose subject resolves to a non-empty string is
retained (regardless of the lesson/homework texts, placeholders included). -/
theorem extract_homework_subject_nonempty :
    (∀ (env : ExtractEnv) (r : HomeworkRecord), r ∈ extract_homework env → r.subject ≠ "") ∧
    (∀ (c0 c1 c2 c3 c4 c5 : Cell) (rest : List Cell) (ds : String),
      extract_subject c1 ≠ "" →
      ∃ r, process_row (c0 :: c1 :: c2 :: c3 :: c4 :: c5 :: rest) ds = [r] ∧
        r.subject = extract_subject c1) := by
  constructor
  · intro env r hr
    have hfound : ∀ r ∈ extract_homework_found env, r.subject ≠ "" := by
      intro r hr
      unfold extract_homework_found at hr
      rcases hh : env.find_heading with e | ho
      · simp [hh] at hr
      rcases ho with _ | hobj
      · simp [hh] at hr
      rcases ht : env.find_table with e | tb
      · simp [hh, ht] at hr
      rcases tb with _ | tobj
      · simp [hh, ht] at hr
      simp only [hh, ht] at hr
      rcases hd : extract_table_data env.fetch_rows env.target_date_str with l | l
      · simp [hd] at hr
      · simp only [hd] at hr
        rcases hf : env.fetch_rows with e | rows
        · rw [hf] at hd
          simp [extract_table_data] at hd
        · rw [hf] at hd
          exact extract_table_rows_subject rows env.target_date_str [] (by simp) l
            (Or.inl hd) r hr
    unfold extract_homework at hr
    rcases hw : env.wait_load with e | u
    · simp [hw] at hr
    simp only [hw] at hr
    by_cases hfd : env.find_date_on_page
    · rw [if_pos hfd] at hr
      exact hfound r hr
    · rw [if_neg hfd] at hr
      rcases hn : env.navigate_result with e | b
      · simp [hn] at hr
      rcases b with _ | _
      · simp [hn] at hr
      · simp only [hn] at hr
        exact hfound r hr
  · intro c0 c1 c2 c3 c4 c5 rest ds hs
    refine ⟨⟨extract_cell_text c0, extract_subject c1, extract_cell_text c2,
      extract_cell_text c4, extract_cell_text c5,
      combine_content (extract_cell_text c4) (extract_cell_text c5),
      extract_cell_text c3, attached_from (c0 :: c1 :: c2 :: c3 :: c4 :: c5 :: rest), ds⟩,
      ?_, rfl⟩
    simp [process_row, hs, attached_from]

/-- C9 witness: a six-cell row whose lesson and homework cells hold the
"no data yet" placeholder text is retained because its subject is
non-empty. -/
theorem extract_homework_subject_nonempty_witness :
    extract_subject ⟨some "x", some (some "מתמטיקה"), [], []⟩ ≠ "" ∧
    ∃ r, process_row
        [⟨some "1", none, [], []⟩, ⟨some "x", some (some "מתמטיקה"), [], []⟩,
          ⟨some "כהן", none, [], []⟩, ⟨some "נוכח", none, [], []⟩,
          ⟨some "טרם הוזנו נתונים", none, [], []⟩, ⟨some "טרם הוזנו נתונים", none, [], []⟩]
        "21/01/2026" = [r] ∧
      r.subject = extract_subject ⟨some "x", some (some "מתמטיקה"), [], []⟩ :=
  ⟨by decide,
    extract_homework_subject_nonempty.2 _ _ _ _ _ _ [] "21/01/2026" (by decide)⟩

/-- C10: a row with fewer than six cells contributes no record at all, and
every record produced by a row comes from a row with at least six cells,
with its attachments drawn exactly from the 7th cell when present (and
empty otherwise). -/
theorem process_row_six_cells :
    (∀ (cells : List Cell) (ds : String), cells.length < 6 → process_row cells ds = []) ∧
    (∀ (cells : List Cell) (ds : String) (r : HomeworkRecord), r ∈ process_row cells ds →
      6 ≤ cells.length ∧ r.attached_files = attached_from cells) := by
  constructor
  · intro cells ds hlen
    rcases cells with _ | ⟨c0, cells⟩
    · rfl
    rcases cells with _ | ⟨c1, cells⟩
    · rfl
    rcases cells with _ | ⟨c2, cells⟩
    · rfl
    rcases cells with _ | ⟨c3, cells⟩
    · rfl
    rcases cells with _ | ⟨c4, cells⟩
    · rfl
    rcases cells with _ | ⟨c5, cells⟩
    · rfl
    simp at hlen
    omega
  · intro cells ds r hr
    rcases cells with _ | ⟨c0, cells⟩
    · simp [process_row] at hr
    rcases cells with _ | ⟨c1, cells⟩
    · simp [process_row] at hr
    rcases cells with _ | ⟨c2, cells⟩
    · simp [process_row] at hr
    rcases cells with _ | ⟨c3, cells⟩
    · simp [process_row] at hr
    rcases cells with _ | ⟨c4, cells⟩
    · simp [process_row] at hr
    rcases cells with _ | ⟨c5, cells⟩
    · simp [process_row] at hr
    refine ⟨by simp, ?_⟩
    by_cases hs : extract_subject c1 = ""
    · simp [process_row, hs] at hr
    · simp [process_row, hs] at hr
      subst hr
      rcases cells with _ | ⟨c6, cells⟩
      · simp [attached_from]
      · simp [attached_from]

/-- C10 witness: a five-cell row with a perfectly good subject yields
nothing; a seven-cell row yields a record whose attachments come from the
7th cell. -/
theorem process_row_six_cells_witness :
    ([⟨some "1", some (some "s"), [], []⟩, ⟨some "2", some (some "s"), [], []⟩,
        ⟨some "3", none, [], []⟩, ⟨some "4", none, [], []⟩,
        ⟨some "5", none, [], []⟩] : List Cell).length < 6 ∧
    process_row
      [⟨some "1", some (some "s"), [], []⟩, ⟨some "2", some (some "s"), [], []⟩,
        ⟨some "3", none, [], []⟩, ⟨some "4", none, [], []⟩, ⟨some "5", none, [], []⟩]
      "21/01/2026" = [] :=
  ⟨by decide,
    process_row_six_cells.1 _ "21/01/2026" (by decide)⟩

/-- Concrete six-cell row used by the C3 counterexample. -/
def cex_row_C3 : List Cell :=
  [⟨some "1", none, [], []⟩, ⟨some "מתמטיקה", none, [], []⟩, ⟨some "t", none, [], []⟩,
    ⟨some "s", none, [], []⟩, ⟨some "l", none, [], []⟩, ⟨some "h", none, [], []⟩]

/-- Environment for the C3 counterexample: all steps succeed, the table has
one good row followed by a row whose cell-list lookup raises. -/
def cex_env_C3 : ExtractEnv :=
  ⟨.ok (), "21/01/2026", true, .ok true, .ok (some ()), .ok (some ()),
    .ok [.ok cex_row_C3, .error ()]⟩

/-- The record the failing table extraction had accumulated. -/
def cex_record_C3 : HomeworkRecord :=
  ⟨"1", "מתמטיקה", "t", "l", "h", "l | h", "s", [], "21/01/2026"⟩

/-- C3 counterexample: a failure in the middle of the row loop occurs after
one record was accumulated, yet `extract_homework` returns `[]` — not the
partial list accumulated at the point of failure. -/
theorem extract_homework_partial_discarded :
    extract_homework cex_env_C3 = [] ∧
    extract_table_data cex_env_C3.fetch_rows cex_env_C3.target_date_str =
      .error [cex_record_C3] ∧
    [cex_record_C3] ≠ ([] : List HomeworkRecord) := by
  refine ⟨rfl, rfl, by decide⟩

/-- C3 (amended): `extract_homework` never raises (it is a total function
of the step outcomes) and a non-empty result only arises from a fully
successful table extraction; on any failure the returned list is `[]`,
records accumulated inside a partially-failed `_extract_table_data` call
being discarded. -/
theorem extract_homework_total_or_complete (env : ExtractEnv) :
    extract_homework env = [] ∨
    extract_table_data env.fetch_rows env.target_date_str =
      .ok (extract_homework env) := by
  unfold extract_homework
  rcases hw : env.wait_load with e | u
  · exact Or.inl rfl
  simp only
  by_cases hfd : env.find_date_on_page
  · rw [if_pos hfd]
    unfold extract_homework_found
    rcases hh : env.find_heading with e | ho
    · exact Or.inl rfl
    rcases ho with _ | hobj
    · exact Or.inl rfl
    rcases ht : env.find_table with e | tb
    · exact Or.inl rfl
    rcases tb with _ | tobj
    · exact Or.inl rfl
    rcases hd : extract_table_data env.fetch_rows env.target_date_str with l | l
    · simp [hd]
    · simp [hd]
  · rw [if_neg hfd]
    rcases hn : env.navigate_result with e | b
    · exact Or.inl rfl
    rcases b with _ | _
    · exact Or.inl rfl
    · simp only
      unfold extract_homework_found
      rcases hh : env.find_heading with e | ho
      · exact Or.inl rfl
      rcases ho with _ | hobj
      · exact Or.inl rfl
      rcases ht : env.find_table with e | tb
      · exact Or.inl rfl
      rcases tb with _ | tobj
      · exact Or.inl rfl
      rcases hd : extract_table_data env.fetch_rows env.target_date_str with l | l
      · simp [hd]
      · simp [hd]

/-! ## `WebtopPagination.navigate_to_date_page` (`pagination.py`, lines 131-220)

The loop is modelled over an adversarial world: each page-driver outcome is
an arbitrary function of the iteration counter and the current URL, so the
theorems quantify over every behavior of the navigation controls and page
contents (including time-varying pages).  Dates are modelled as a linearly
ordered type (`Int`), URLs as opaque naturals.  A "navigation step" is one
call of `_click_navigation_button`; the loop records each in a trace
together with the phase index, which increments exactly when the code flips
the direction and clears `visited_pages`. -/

/-- Search direction of the pagination loop. -/
inductive Dir where
  | forward
  | backward
deriving DecidableEq, Repr

/-- `Config.MAX_PAGINATION_PAGES` from `config.py`. -/
def MAX_PAGINATION_PAGES : Nat := 100

/-- One recorded navigation step: the phase (incremented at every direction
flip, when `visited_pages` is cleared), the URL clicked from, and the
direction. -/
structure NavClick where
  phase : Nat
  url : Nat
  dir : Dir
deriving DecidableEq, Repr

/-- Behavior of the site as the loop observes it.  `initFound`, `initDates`
and `initUrl` describe the pre-loop checks; the other oracles take the
iteration counter and the current URL.  `findButton` is the outcome of
`_find_navigation_button` (which catches its own errors), `waitLoadOk`
whether the unguarded `wait_for_load_state` at line 192 returns normally,
`findDate` the `find_date_on_page` result, and the `click*` fields the
observable outcome of `_click_navigation_button` (which catches all its
errors and returns a found-flag and a possibly flipped direction). -/
structure NavWorld where
  initFound : Bool
  initDates : List Int
  initUrl : Nat
  findButton : Nat → Nat → Dir → Bool
  waitLoadOk : Nat → Nat → Bool
  findDate : Nat → Nat → Bool
  clickFound : Nat → Nat → Dir → Bool
  clickNewDir : Nat → Nat → Dir → Dir
  clickNewUrl : Nat → Nat → Dir → Nat

/-- Mutable state of the `while pages_checked < max_pages` loop. -/
structure NavSt where
  t : Nat
  url : Nat
  dir : Dir
  visited : List Nat
  phase : Nat
  trace : List NavClick

/-- Result of `navigate_to_date_page`: the boolean return value (or the
exception escaping through the unguarded wait) plus the recorded clicks. -/
structure NavOut where
  result : Except Unit Bool
  trace : List NavClick
deriving Repr

/-- The pagination loop (lines 173-217), fuel = `max_pages - pages_checked`:
a revisited URL flips the direction once (clearing the visited set) or
stops; otherwise the button is looked up, the date re-checked, and the
button clicked when found, after which `_click_navigation_button` may
report success or a new direction (flips clear the visited set); with no
button the direction flips once or the loop stops. -/
def nav_loop (w : NavWorld) : Nat → NavSt → NavOut
  | 0, st => ⟨.ok false, st.trace⟩
  | fuel + 1, st =>
    if st.url ∈ st.visited then
      if st.dir = .forward then
        nav_loop w fuel ⟨st.t + 1, st.url, .backward, [], st.phase + 1, st.trace⟩
      else ⟨.ok false, st.trace⟩
    else if w.waitLoadOk st.t st.url = false then ⟨.error (), st.trace⟩
    else if w.findDate st.t st.url then ⟨.ok true, st.trace⟩
    else if w.findButton st.t st.url st.dir then
      if w.clickFound st.t st.url st.dir then
        ⟨.ok true, st.trace ++ [⟨st.phase, st.url, st.dir⟩]⟩
      else if w.clickNewDir st.t st.url st.dir ≠ st.dir then
        nav_loop w fuel ⟨st.t + 1, w.clickNewUrl st.t st.url st.dir,
          w.clickNewDir st.t st.url st.dir, [], st.phase + 1,
          st.trace ++ [⟨st.phase, st.url, st.dir⟩]⟩
      else
        nav_loop w fuel ⟨st.t + 1, w.clickNewUrl st.t st.url st.dir, st.dir,
          st.url :: st.visited, st.phase,
          st.trace ++ [⟨st.phase, st.url, st.dir⟩]⟩
    else if st.dir = .forward then
      nav_loop w fuel ⟨st.t + 1, st.url, .backward, [], st.phase + 1, st.trace⟩
    else ⟨.ok false, st.trace⟩

/-- `sorted(dates)[0]` of a non-empty list. -/
def list_min (x : Int) (xs : List Int) : Int := xs.foldl min x

/-- `sorted(dates)[-1]` of a non-empty list. -/
def list_max (x : Int) (xs : List Int) : Int := xs.foldl max x

/-- The direction decision of lines 156-170: backward when the target
precedes the earliest visible date, forward when it follows the latest,
`none` (inconsistent state, report failure) when it falls within the
range; with no visible dates default to forward. -/
def init_direction (target : Int) : List Int → Option Dir
  | [] => some .forward
  | x :: xs =>
    if target < list_min x xs then some .backward
    else if list_max x xs < target then some .forward
    else none

/-- `WebtopPagination.navigate_to_date_page` (lines 131-220): if the date
is already on the page return `True`; otherwise choose the direction from
the visible date range and run the bounded loop, or report failure when
the target falls inside the visible range. -/
def navigate_to_date_page (w : NavWorld) (target : Int) : NavOut :=
  if w.initFound then ⟨.ok true, []⟩
  else
    match init_direction target w.initDates with
    | some d => nav_loop w MAX_PAGINATION_PAGES ⟨0, w.initUrl, d, [], 0, []⟩
    | none => ⟨.ok false, []⟩

/-- Per-phase distinctness of clicked URLs. -/
def phase_distinct (tr : List NavClick) : Prop :=
  tr.Pairwise fun e1 e2 => e1.phase = e2.phase → e1.url ≠ e2.url

/-- Loop invariant tying the trace to the visited set of the current
phase. -/
def nav_invariant (st : NavSt) : Prop :=
  phase_distinct st.trace ∧
  (∀ e ∈ st.trace, e.phase ≤ st.phase) ∧
  (∀ e ∈ st.trace, e.phase = st.phase → e.url ∈ st.visited)

/-- The loop preserves per-phase distinctness and adds at most one click
per unit of fuel. -/
theorem nav_loop_invariant (w : NavWorld) (fuel : Nat) :
    ∀ st : NavSt, nav_invariant st →
      phase_distinct (nav_loop w fuel st).trace ∧
      (nav_loop w fuel st).trace.length ≤ st.trace.length + fuel := by
  induction fuel with
  | zero =>
    intro st hst
    exact ⟨hst.1, by simp [nav_loop]⟩
  | succ fuel ih =>
    intro st hst
    obtain ⟨hpd, hple, hvis⟩ := hst
    have hflip : nav_invariant ⟨st.t + 1, st.url, .backward, [], st.phase + 1, st.trace⟩ := by
      refine ⟨hpd, ?_, ?_⟩
      · intro e he
        have h3 := hple e he
        show e.phase ≤ st.phase + 1
        omega
      · intro e he hph
        have h2 : e.phase = st.phase + 1 := hph
        exact absurd h2 (by have := hple e he; omega)
    have hpd1 : phase_distinct (st.trace ++ [⟨st.phase, st.url, st.dir⟩]) ∨
        st.url ∈ st.visited := by
      by_cases hmem : st.url ∈ st.visited
      · exact Or.inr hmem
      · refine Or.inl ?_
        rw [phase_distinct, List.pairwise_append]
        refine ⟨hpd, by simp, ?_⟩
        intro a ha b hb
        simp only [List.mem_singleton] at hb
        subst hb
        intro hph he
        have he2 : a.url = st.url := he
        have hph2 : a.phase = st.phase := hph
        exact hmem (he2 ▸ hvis a ha hph2)
    simp only [nav_loop]
    split_ifs with h1 h2 h3 h4 h5 h6 h7 h8
    · obtain ⟨ha, hb⟩ := ih _ hflip
      refine ⟨ha, ?_⟩
      simp only at hb
      omega
    · exact ⟨hpd, by simp only; omega⟩
    · exact ⟨hpd, by simp only; omega⟩
    · exact ⟨hpd, by simp only; omega⟩
    · -- click, date found after the click
      refine ⟨hpd1.resolve_right h1, ?_⟩
      simp only [List.length_append, List.length_cons, List.length_nil]
      omega
    · -- click, direction flipped
      have hinv : nav_invariant ⟨st.t + 1, w.clickNewUrl st.t st.url st.dir,
          w.clickNewDir st.t st.url st.dir, [], st.phase + 1,
          st.trace ++ [⟨st.phase, st.url, st.dir⟩]⟩ := by
        refine ⟨hpd1.resolve_right h1, ?_, ?_⟩
        · intro e he
          show e.phase ≤ st.phase + 1
          rcases List.mem_append.1 he with h | h
          · have := hple e h
            omega
          · simp only [List.mem_singleton] at h
            subst h
            exact Nat.le_succ _
        · intro e he hph
          have hph2 : e.phase = st.phase + 1 := hph
          rcases List.mem_append.1 he with h | h
          · exact absurd hph2 (by have := hple e h; omega)
          · simp only [List.mem_singleton] at h
            subst h
            exact absurd hph2 (by simp)
      obtain ⟨ha, hb⟩ := ih _ hinv
      refine ⟨ha, ?_⟩
      simp only [List.length_append, List.length_cons, List.length_nil] at hb
      omega
    · -- click, same direction
      have hinv : nav_invariant ⟨st.t + 1, w.clickNewUrl st.t st.url st.dir, st.dir,
          st.url :: st.visited, st.phase,
          st.trace ++ [⟨st.phase, st.url, st.dir⟩]⟩ := by
        refine ⟨hpd1.resolve_right h1, ?_, ?_⟩
        · intro e he
          show e.phase ≤ st.phase
          rcases List.mem_append.1 he with h | h
          · exact hple e h
          · simp only [List.mem_singleton] at h
            subst h
            exact le_refl _
        · intro e he hph
          have hph2 : e.phase = st.phase := hph
          show e.url ∈ st.url :: st.visited
          rcases List.mem_append.1 he with h | h
          · exact List.mem_cons_of_mem _ (hvis e h hph2)
          · simp only [List.mem_singleton] at h
            subst h
            exact List.mem_cons_self _ _
      obtain ⟨ha, hb⟩ := ih _ hinv
      refine ⟨ha, ?_⟩
      simp only [List.length_append, List.length_cons, List.length_nil] at hb
      omega
    · obtain ⟨ha, hb⟩ := ih _ hflip
      refine ⟨ha, ?_⟩
      simp only at hb
      omega
    · exact ⟨hpd, by simp only; omega⟩

/-- C4 (amended): within one directional phase — between two consecutive
direction flips, which are exactly the points where the code clears
`visited_pages` — the search never issues a navigation step from the same
URL twice; and for every behavior the call performs at most
`maxPages = MAX_PAGINATION_PAGES` navigation steps, a fortiori at most
`2 × maxPages`.  (Across phases the same URL can be re-clicked in the same
direction, as the counterexample shows.) -/
theorem navigate_phase_distinct_bounded (w : NavWorld) (target : Int) :
    phase_distinct (navigate_to_date_page w target).trace ∧
    (navigate_to_date_page w target).trace.length ≤ MAX_PAGINATION_PAGES ∧
    (navigate_to_date_page w target).trace.length ≤ 2 * MAX_PAGINATION_PAGES := by
  have base : ∀ d : Dir, nav_invariant ⟨0, w.initUrl, d, [], 0, []⟩ := by
    intro d
    exact ⟨List.Pairwise.nil, by simp, by simp⟩
  have hloop : ∀ d : Dir,
      phase_distinct (nav_loop w MAX_PAGINATION_PAGES ⟨0, w.initUrl, d, [], 0, []⟩).trace ∧
      (nav_loop w MAX_PAGINATION_PAGES ⟨0, w.initUrl, d, [], 0, []⟩).trace.length ≤
        MAX_PAGINATION_PAGES := by
    intro d
    have := nav_loop_invariant w MAX_PAGINATION_PAGES _ (base d)
    simpa using this
  unfold navigate_to_date_page
  split_ifs with h1
  · exact ⟨List.Pairwise.nil, by simp, by simp⟩
  rcases hd : init_direction target w.initDates with _ | d
  · simp only [hd]
    exact ⟨List.Pairwise.nil, by simp, by simp⟩
  · simp only [hd]
    obtain ⟨ha, hb⟩ := hloop d
    exact ⟨ha, hb, le_trans hb (by norm_num [MAX_PAGINATION_PAGES])⟩

/-- World for the C4 counterexample: two pages `0` and `1`; page `0` shows
only a date after the target, page `1` only a date before it; navigation
buttons always exist, each click toggles the page, the target is never
found, and after every click the newly visible range makes the code flip
direction (clearing the visited set).  This is deterministic, realizable
page behavior. -/
def cex_world_C4 : NavWorld where
  initFound := false
  initDates := [20]
  initUrl := 0
  findButton := fun _ _ _ => true
  waitLoadOk := fun _ _ => true
  findDate := fun _ _ => false
  clickFound := fun _ _ _ => false
  clickNewDir := fun _ _ d => match d with | .forward => .backward | .backward => .forward
  clickNewUrl := fun _ u _ => if u = 0 then 1 else 0

set_option maxRecDepth 10000 in
/-- C4 counterexample: within one call, the search issues a navigation step
from URL `0` in the backward direction at least twice — the claim's
"never revisits the same page twice in the same direction" fails, because
every direction flip clears `visited_pages` and the direction can flip
back. -/
theorem navigate_revisit_same_direction_counterexample :
    2 ≤ (navigate_to_date_page cex_world_C4 10).trace.countP
      (fun e => decide (e.url = 0) && decide (e.dir = Dir.backward)) := by
  decide

/-- C5: when the target date is not found on the page but the page shows a
non-empty parsed date set whose earliest is not after and whose latest is
not before the target, the call returns `False` immediately, with zero
navigation steps. -/
theorem navigate_in_range_fails_without_navigation (w : NavWorld) (target x : Int)
    (xs : List Int) (hfound : w.initFound = false) (hdates : w.initDates = x :: xs)
    (hlo : list_min x xs ≤ target) (hhi : target ≤ list_max x xs) :
    navigate_to_date_page w target = ⟨.ok false, []⟩ := by
  unfold navigate_to_date_page
  simp [hfound, hdates, init_direction, not_lt.mpr hlo, not_lt.mpr hhi]

/-- World for the C5 witness: the page shows dates 5 and 20 and the target
is 10. -/
def cex_world_C5 : NavWorld where
  initFound := false
  initDates := [5, 20]
  initUrl := 0
  findButton := fun _ _ _ => true
  waitLoadOk := fun _ _ => true
  findDate := fun _ _ => false
  clickFound := fun _ _ _ => false
  clickNewDir := fun _ _ d => d
  clickNewUrl := fun _ u _ => u

/-- C5 witness: a concrete world with visible dates 5 and 20 and target 10
reports failure with an empty click trace. -/
theorem navigate_in_range_fails_without_navigation_witness :
    cex_world_C5.initFound = false ∧ cex_world_C5.initDates = [5, 20] ∧
    list_min 5 [20] ≤ 10 ∧ (10 : Int) ≤ list_max 5 [20] ∧
    navigate_to_date_page cex_world_C5 10 = ⟨.ok false, []⟩ :=
  ⟨rfl, rfl, by decide, by decide,
    navigate_in_range_fails_without_navigation cex_world_C5 10 5 [20] rfl rfl
      (by decide) (by decide)⟩

/-! ## `WebtopAuth.login` (`auth.py`, lines 28-86)

The whole body of `login` sits inside `try: ... except Exception: ...
return False`.  Each awaited step is modelled by an environment field with
an `Except` outcome; helpers whose source swallows their own exceptions
(`_accept_cookies`, the diagnostic capture) do not appear because they
cannot influence the result.  The two helper lookups raise a dedicated
"field not found" error when all their strategies fail. -/

/-- An exception inside the login flow: the explicit field-not-found errors
raised by the helper lookups, or any other page error. -/
inductive AuthErr where
  | fieldNotFound (which : String)
  | pageError
deriving DecidableEq, Repr

/-- Outcomes of the awaited page operations of the login flow, in program
order.  `usernameSelectorHit` is `some` when one of the three username
selectors matches and becomes visible (the per-selector exceptions are
swallowed by the loop); `usernameByRole` is the `get_by_role` fallback;
similarly for the password field.  `loginButtonHit` is `some` when any of
the four `_find_login_button` methods returns a button. -/
structure AuthEnv where
  goto : Except AuthErr Unit
  blockedInitial : Except AuthErr Bool
  reload : Except AuthErr Unit
  blockedRetry : Except AuthErr Bool
  clickMoe : Except AuthErr Unit
  handleMoePage : Except AuthErr Unit
  usernameSelectorHit : Option Unit
  usernameByRole : Option Unit
  fillUsername : Except AuthErr Unit
  passwordSelectorHit : Option Unit
  passwordByRole : Option Unit
  clickPassword : Except AuthErr Unit
  fillPassword : Except AuthErr Unit
  loginButtonHit : Option Unit
  clickLogin : Except AuthErr Unit
  verify : Except AuthErr Bool

/-- `WebtopAuth._find_username_field` (lines 250-265): try the selector
chain, then `get_by_role`, and raise "Could not find username field" when
both fail. -/
def find_username_field (env : AuthEnv) : Except AuthErr Unit :=
  match env.usernameSelectorHit with
  | some f => .ok f
  | none =>
    match env.usernameByRole with
    | some f => .ok f
    | none => .error (.fieldNotFound "username")

/-- `WebtopAuth._find_password_field` (lines 267-282). -/
def find_password_field (env : AuthEnv) : Except AuthErr Unit :=
  match env.passwordSelectorHit with
  | some f => .ok f
  | none =>
    match env.passwordByRole with
    | some f => .ok f
    | none => .error (.fieldNotFound "password")

/-- `WebtopAuth._find_login_button` (lines 303-369): four lookup methods,
raising "Could not find login button" when all fail. -/
def find_login_button (env : AuthEnv) : Except AuthErr Unit :=
  match env.loginButtonHit with
  | some b => .ok b
  | none => .error (.fieldNotFound "login button")

/-- `WebtopAuth._fill_credentials` (lines 233-248): resolve and fill the
username field, then resolve, click and fill the password field. -/
def fill_credentials (env : AuthEnv) : Except AuthErr Unit :=
  match find_username_field env with
  | .error e => .error e
  | .ok _ =>
    match env.fillUsername with
    | .error e => .error e
    | .ok _ =>
      match find_password_field env with
      | .error e => .error e
      | .ok _ =>
        match env.clickPassword with
        | .error e => .error e
        | .ok _ => env.fillPassword

/-- `WebtopAuth._click_login_button` (lines 284-301): resolve the button
(raising when not found), poll for enablement, click. -/
def click_login_button (env : AuthEnv) : Except AuthErr Unit :=
  match find_login_button env with
  | .error e => .error e
  | .ok _ => env.clickLogin

/-- The steps of `login` after the Cloudflare check: the Ministry button,
the identity-provider page handling, credentials, submit, and redirect
verification. -/
def login_rest (env : AuthEnv) : Except AuthErr Bool :=
  match env.clickMoe with
  | .error e => .error e
  | .ok _ =>
    match env.handleMoePage with
    | .error e => .error e
    | .ok _ =>
      match fill_credentials env with
      | .error e => .error e
      | .ok _ =>
        match click_login_button env with
        | .error e => .error e
        | .ok _ => env.verify

/-- The `try` block of `login` (lines 38-78): navigate, check for a
Cloudflare block (retrying once and returning `False` when still blocked),
then run the rest of the flow. -/
def login_body (env : AuthEnv) : Except AuthErr Bool :=
  match env.goto with
  | .error e => .error e
  | .ok _ =>
    match env.blockedInitial with
    | .error e => .error e
    | .ok true =>
      match env.reload with
      | .error e => .error e
      | .ok _ =>
        match env.blockedRetry with
        | .error e => .error e
        | .ok true => .ok false
        | .ok false => login_rest env
    | .ok false => login_rest env

/-- `WebtopAuth.login` (lines 28-86): the whole body is wrapped in
`except Exception`, which attempts a best-effort diagnostic capture (its
own failures swallowed) and returns `False`. -/
def login (env : AuthEnv) : Bool :=
  match login_body env with
  | .ok b => b
  | .error _ => false

/-- Environment for the C1 counterexample: everything up to the username
lookup succeeds, but no username selector matches and the `get_by_role`
fallback fails, so `_find_username_field` raises its explicit
field-not-found error. -/
def cex_env_C1 : AuthEnv :=
  ⟨.ok (), .ok false, .ok (), .ok false, .ok (), .ok (), none, none, .ok (),
    some (), none, .ok (), .ok (), some (), .ok (), .ok true⟩

/-- C1 counterexample: the username field-not-found error reaches `login`'s
boundary but does not propagate to its caller — `login` catches it (its
`except Exception` clause) and returns `False`. -/
theorem login_field_error_not_propagated :
    login_body cex_env_C1 = .error (.fieldNotFound "username") ∧
    login cex_env_C1 = false := ⟨rfl, rfl⟩

/-- C1 (amended): every exception during the flow — including the explicit
field-not-found errors of the username/password/login-button lookups — is
caught by `login`'s catch-all and converted to boolean `False`; nothing
raises past `login`.  The field-not-found errors do propagate out of the
helpers up to `login`'s own boundary. -/
theorem login_catches_all_errors :
    (∀ (env : AuthEnv) (err : AuthErr), login_body env = .error err → login env = false) ∧
    (∀ env : AuthEnv, env.goto = .ok () → env.blockedInitial = .ok false →
      env.clickMoe = .ok () → env.handleMoePage = .ok () →
      env.usernameSelectorHit = none → env.usernameByRole = none →
      login_body env = .error (.fieldNotFound "username") ∧ login env = false) := by
  constructor
  · intro env err h
    simp [login, h]
  · intro env hg hb hc hm hu1 hu2
    have hbody : login_body env = .error (.fieldNotFound "username") := by
      simp [login_body, login_rest, fill_credentials, find_username_field,
        hg, hb, hc, hm, hu1, hu2]
    exact ⟨hbody, by simp [login, hbody]⟩

/-- C1 witness: the amended claim applied to the concrete environment of
the counterexample. -/
theorem login_catches_all_errors_witness :
    login_body cex_env_C1 = .error (.fieldNotFound "username") ∧
    login cex_env_C1 = false :=
  login_catches_all_errors.2 cex_env_C1 rfl rfl rfl rfl rfl rfl

/-! ## `WebtopScraper.get_today_homework` (`scraper.py`, lines 36-119)

The orchestrator checks the credentials, parses the date argument, and
only then enters the Playwright context to launch the browser, log in,
navigate and extract.  The model records every effect performed against
the browser in order, so "zero navigation operations" is an equality of
the effect trace with `[]`. -/

/-- An effect performed against the browser/page. -/
inductive ScrapeEffect where
  | launchBrowser
  | createContext
  | createPage
  | loginAttempt
  | navigateToHomework
  | extractHomework
deriving DecidableEq, Repr

/-- Errors surfaced by `get_today_homework` to its caller. -/
inductive ScrapeErr where
  | configurationError
  | dateParseError
  | loginFailed
  | navigationFailed
  | pageError
deriving DecidableEq, Repr

/-- Outcomes of the browser-facing steps of `get_today_homework`.  `login`
returns a boolean (it never raises, per the `login` model above) but is
kept as `Except` to cover arbitrary failures of the call itself;
`extracted` is the extractor's result (total, per the extractor model). -/
structure ScrapeEnv where
  launch : Except Unit Unit
  createContext : Except Unit Unit
  createPage : Except Unit Unit
  login : Except Unit Bool
  navigate : Except Unit Bool
  extracted : List HomeworkRecord

/-- `WebtopScraper.get_today_homework` (lines 36-119): raise
`ConfigurationError` when either credential is falsy, before anything
else; parse the date argument (a falsy argument means "today"); then
launch the browser, re-check the credentials, log in (a `False` login
raises), navigate (a `False` navigation raises), extract, and return.
Errors inside the Playwright block are re-raised after cleanup. -/
def get_today_homework (username password : String) (dateArg : Option (List Char))
    (env : ScrapeEnv) : Except ScrapeErr (List HomeworkRecord) × List ScrapeEffect :=
  if username = "" ∨ password = "" then (.error .configurationError, [])
  else
    match (match dateArg with
           | some s => if s ≠ [] then parse_date (some s) else .ok none
           | none => .ok none) with
    | .error _ => (.error .dateParseError, [])
    | .ok _ =>
      match env.launch with
      | .error _ => (.error .pageError, [.launchBrowser])
      | .ok _ =>
        match env.createContext with
        | .error _ => (.error .pageError, [.launchBrowser, .createContext])
        | .ok _ =>
          match env.createPage with
          | .error _ => (.error .pageError, [.launchBrowser, .createContext, .createPage])
          | .ok _ =>
            if username = "" ∨ password = "" then
              (.error .configurationError, [.launchBrowser, .createContext, .createPage])
            else
              match env.login with
              | .error _ =>
                (.error .pageError,
                  [.launchBrowser, .createContext, .createPage, .loginAttempt])
              | .ok false =>
                (.error .loginFailed,
                  [.launchBrowser, .createContext, .createPage, .loginAttempt])
              | .ok true =>
                match env.navigate with
                | .error _ =>
                  (.error .pageError,
                    [.launchBrowser, .createContext, .createPage, .loginAttempt,
                      .navigateToHomework])
                | .ok false =>
                  (.error .navigationFailed,
                    [.launchBrowser, .createContext, .createPage, .loginAttempt,
                      .navigateToHomework])
                | .ok true =>
                  (.ok env.extracted,
                    [.launchBrowser, .createContext, .createPage, .loginAttempt,
                      .navigateToHomework, .extractHomework])

/-- C8: with both credentials empty the call fails immediately with the
configuration `ValueError`, and the effect trace is empty — no browser
launch and no navigation operation happens. -/
theorem get_today_homework_config_error (u p : String) (d : Option (List Char))
    (env : ScrapeEnv) (hu : u = "") (hp : p = "") :
    get_today_homework u p d env = (.error .configurationError, []) := by
  subst hu
  subst hp
  simp [get_today_homework]

/-- C8 witness: concrete empty credentials with a date argument and an
arbitrary concrete environment. -/
theorem get_today_homework_config_error_witness :
    get_today_homework "" "" (some "21-01-2026".toList)
      ⟨.ok (), .ok (), .ok (), .ok true, .ok true, []⟩ =
      (.error .configurationError, []) :=
  get_today_homework_config_error "" "" (some "21-01-2026".toList)
    ⟨.ok (), .ok (), .ok (), .ok true, .ok true, []⟩ rfl rfl

end Webtop
